import Mathlib

/-!
Verification of the persisted-list store in `src/App.js` (MyLocation-Expo).

The app keeps two pieces of durable state in AsyncStorage: a dark-mode
preference and a list of captured location records.  We embed the four
storage-touching functions (`loadDarkMode`, `onToggleSwitch`, `getLocation`,
`loadLocations`) as pure state transformers.

Modelling conventions for the external libraries (AsyncStorage and the JS
JSON object, which are not part of this repository):
* AsyncStorage is a string-keyed map of string cells.  A stored string is
  represented at the JSON level: `Raw.json j` stands for a stored string
  that `JSON.parse` turns into the value `j` (in particular the output of
  `JSON.stringify j`, which is never the empty string), and `Raw.corrupt s`
  stands for a stored string `s` on which `JSON.parse` throws.
* Each AsyncStorage call may reject; rejection is injected through explicit
  boolean flags (`getFails`, `setFails`) in the environment of a call.
* `Date.now()`, `Math.random().toString(36).substring(2, 9)` and
  `new Date().toISOString()` are environment observations (`now`, `suffix`,
  `timestamp`).  The fake-coordinate float arithmetic on line 62-63 of
  `src/App.js` is not modelled bit-for-bit (IEEE floats); the observed
  resulting coordinates enter as environment observations `lat`, `lon`.
  No claim depends on the numeric values of the coordinates.
* `Alert.alert("Erro", msg)` is recorded by appending `msg` to the list of
  alerts emitted by the call; `console.error` logging is not tracked.
-/

namespace MyLocationApp

/-- JSON values: the possible results of `JSON.parse`. -/
inductive Json : Type where
  | null : Json
  | bool : Bool → Json
  | num : Rat → Json
  | str : String → Json
  | arr : List Json → Json
  | obj : List (String × Json) → Json

/-- A raw AsyncStorage cell: either a string parsing to a JSON value, or a
string on which `JSON.parse` throws. -/
inductive Raw : Type where
  | json : Json → Raw
  | corrupt : String → Raw

/-- AsyncStorage contents: each string key holds an optional raw string
(`AsyncStorage.getItem` returns null for an absent key). -/
def Storage : Type := String → Option Raw

/-- Model of `AsyncStorage.setItem key value` (the successful case). -/
def setItem (st : Storage) (k : String) (v : Raw) : Storage :=
  fun q => if q = k then some v else st q

/-- Storage with no keys set. -/
def emptyStorage : Storage := fun _ => none

/-- `const DARK_MODE_KEY = "@darkMode"` (src/App.js line 16). -/
def DARK_MODE_KEY : String := "@darkMode"

/-- `const LOCATIONS_KEY = "@locations"` (src/App.js line 17). -/
def LOCATIONS_KEY : String := "@locations"

/-- The React component state that the storage operations read and write:
`isSwitchOn`, `isLoading`, `locations` (src/App.js lines 20-22).
`setIsSwitchOn(JSON.parse(...))` and `setLocations(JSON.parse(...))` install
whatever JSON value was parsed, so both fields hold a `Json` value. -/
structure AppState : Type where
  isSwitchOn : Json
  isLoading : Bool
  locations : Json

/-- Initial component state: `useState(false)`, `useState(false)`,
`useState([])` (src/App.js lines 20-22). -/
def initialAppState : AppState :=
  { isSwitchOn := Json.bool false, isLoading := false, locations := Json.arr [] }

/-- Result of one of the four async functions: the component state and the
storage after the call, plus the alert messages it showed. -/
structure Outcome : Type where
  app : AppState
  store : Storage
  alerts : List String

/-- Alert message of the `loadDarkMode` catch block (src/App.js line 39). -/
def errLoadDarkMode : String :=
  "Não foi possível carregar a preferência de tema escuro."

/-- Alert message of the `onToggleSwitch` catch block (src/App.js line 51). -/
def errSaveDarkMode : String :=
  "Não foi possível salvar a preferência de tema escuro."

/-- Alert message of the `getLocation` catch block (src/App.js line 77). -/
def errSaveLocation : String :=
  "Não foi possível salvar a nova localização."

/-- Alert message of the `loadLocations` catch block (src/App.js line 108). -/
def errLoadLocations : String :=
  "Não foi possível carregar as localizações salvas."

/-- JavaScript truthiness of a JSON value (used by the conditional
`existingLocationsString ? ... : ...` on line 69 and by `!isSwitchOn` on
line 45). -/
def jsTruthy : Json → Bool
  | Json.null => false
  | Json.bool b => b
  | Json.num q => decide (q ≠ 0)
  | Json.str s => decide (s ≠ "")
  | Json.arr _ => true
  | Json.obj _ => true

/-- JavaScript array spread `[x, ...v]` applied to a parsed JSON value `v`:
spreading an array yields its elements, spreading a string yields its
one-character strings, and spreading any other JSON value throws a
TypeError (`none`). -/
def jsSpread : Json → Option (List Json)
  | Json.arr xs => some xs
  | Json.str s => some (s.data.map (fun c => Json.str (String.mk [c])))
  | _ => none

/-- `JSON.parse` applied to a raw stored string: a parseable string yields
its JSON value, a corrupt string throws (`none`). -/
def jsonParse : Raw → Option Json
  | Raw.json j => some j
  | Raw.corrupt _ => none

/-- `async function loadDarkMode()` (src/App.js lines 31-41): reads the
dark-mode key; when a value is present installs the parsed value via
`setIsSwitchOn`; when absent does nothing; on a read rejection or a parse
exception shows one alert and leaves state unchanged. -/
def loadDarkMode (getFails : Bool) (app : AppState) (st : Storage) : Outcome :=
  if getFails then
    { app := app, store := st, alerts := [errLoadDarkMode] }
  else
    match st DARK_MODE_KEY with
    | none => { app := app, store := st, alerts := [] }
    | some (Raw.json j) =>
        { app := { app with isSwitchOn := j }, store := st, alerts := [] }
    | some (Raw.corrupt _) =>
        { app := app, store := st, alerts := [errLoadDarkMode] }

/-- `async function onToggleSwitch()` (src/App.js lines 44-53): computes
`newSwitchState = !isSwitchOn`, installs it via `setIsSwitchOn` before the
try block, then writes it to the dark-mode key; on a write rejection shows
one alert (the in-memory state keeps the new value). -/
def onToggleSwitch (setFails : Bool) (app : AppState) (st : Storage) : Outcome :=
  let newSwitchState : Json := Json.bool (! jsTruthy app.isSwitchOn)
  let app1 : AppState := { app with isSwitchOn := newSwitchState }
  if setFails then
    { app := app1, store := st, alerts := [errSaveDarkMode] }
  else
    { app := app1,
      store := setItem st DARK_MODE_KEY (Raw.json newSwitchState),
      alerts := [] }

/-- Environment of one `getLocation` call: the observed `Date.now()`
millisecond count, the observed `Math.random().toString(36).substring(2, 9)`
suffix, the observed fake coordinates, the observed ISO timestamp string,
and the rejection flags of the two AsyncStorage calls. -/
structure LocEnv : Type where
  now : Nat
  suffix : String
  lat : Rat
  lon : Rat
  timestamp : String
  getFails : Bool
  setFails : Bool

/-- The id template literal of src/App.js line 61: the string
`loc-` + `Date.now()` in decimal + `-` + the random base-36 suffix. -/
def mkLocationId (now : Nat) (suffix : String) : String :=
  "loc-" ++ Nat.repr now ++ "-" ++ suffix

/-- Decimal digit list of a natural number, most significant digit first:
a recursion-friendly restatement of the digit list produced by `Nat.repr`
(used to reason about the `Date.now()` part of the record id). -/
def reprDigits (n : Nat) : List Char :=
  if _h : n < 10 then [Nat.digitChar n]
  else reprDigits (n / 10) ++ [Nat.digitChar (n % 10)]
termination_by n
decreasing_by exact Nat.div_lt_self (by omega) (by omega)

/-- Numeric value of a decimal digit character. -/
def digitVal (c : Char) : Nat := c.toNat - 48

/-- The `newLocation` object of src/App.js lines 60-65. -/
def mkLocation (e : LocEnv) : Json :=
  Json.obj [("id", Json.str (mkLocationId e.now e.suffix)),
            ("latitude", Json.num e.lat),
            ("longitude", Json.num e.lon),
            ("timestamp", Json.str e.timestamp)]

/-- The read-and-parse step of src/App.js line 68-69:
`existingLocationsString ? JSON.parse(existingLocationsString) : []`.
An absent key (`getItem` returned null) and an empty stored string are
falsy and yield `[]` without parsing; a non-empty corrupt string makes
`JSON.parse` throw (`none`); any other stored string is truthy (the output
of `JSON.stringify` is never empty) and yields its parsed value. -/
def currentVal (st : Storage) : Option Json :=
  match st LOCATIONS_KEY with
  | none => some (Json.arr [])
  | some (Raw.corrupt s) => if s = "" then some (Json.arr []) else none
  | some (Raw.json j) => some j

/-- `async function getLocation()` (src/App.js lines 56-81): sets
`isLoading`, builds `newLocation`, reads the locations key, parses it (an
absent key or an empty stored string is falsy and yields `[]`), prepends
`newLocation` by array spread, writes the whole list back and installs it
via `setLocations`; any rejection or exception inside the try block shows
one alert and reaches neither the write nor `setLocations`; the finally
block clears `isLoading`. -/
def getLocation (e : LocEnv) (app : AppState) (st : Storage) : Outcome :=
  let app1 : AppState := { app with isLoading := true }
  let newLocation : Json := mkLocation e
  let res : Outcome :=
    if e.getFails then
      { app := app1, store := st, alerts := [errSaveLocation] }
    else
      match currentVal st with
      | none => { app := app1, store := st, alerts := [errSaveLocation] }
      | some cur =>
          match jsSpread cur with
          | none => { app := app1, store := st, alerts := [errSaveLocation] }
          | some xs =>
              let updatedLocations : Json := Json.arr (newLocation :: xs)
              if e.setFails then
                { app := app1, store := st, alerts := [errSaveLocation] }
              else
                { app := { app1 with locations := updatedLocations },
                  store := setItem st LOCATIONS_KEY (Raw.json updatedLocations),
                  alerts := [] }
  { res with app := { res.app with isLoading := false } }

/-- `async function loadLocations()` (src/App.js lines 84-113): sets
`isLoading`, reads the locations key; when a value is present installs the
parsed value via `setLocations`; when the key is absent installs the empty
list; on a read rejection or a parse exception shows one alert and installs
the empty list; the finally block clears `isLoading`. -/
def loadLocations (getFails : Bool) (app : AppState) (st : Storage) : Outcome :=
  let app1 : AppState := { app with isLoading := true }
  let res : Outcome :=
    if getFails then
      { app := { app1 with locations := Json.arr [] }, store := st,
        alerts := [errLoadLocations] }
    else
      match st LOCATIONS_KEY with
      | none =>
          { app := { app1 with locations := Json.arr [] }, store := st,
            alerts := [] }
      | some (Raw.json j) =>
          { app := { app1 with locations := j }, store := st, alerts := [] }
      | some (Raw.corrupt _) =>
          { app := { app1 with locations := Json.arr [] }, store := st,
            alerts := [errLoadLocations] }
  { res with app := { res.app with isLoading := false } }

/-- A sequence of `getLocation` calls, one per environment, threading the
component state and the storage (the UI serializes the calls). -/
def runCaptures (es : List LocEnv) (app : AppState) (st : Storage) :
    AppState × Storage :=
  match es with
  | [] => (app, st)
  | e :: rest =>
      let o := getLocation e app st
      runCaptures rest o.app o.store

/-! Concrete sample inputs, used to instantiate the proved properties. -/

/-- A sample capture environment in which both AsyncStorage calls
succeed. -/
def e0 : LocEnv :=
  { now := 1700000000000, suffix := "abc1234", lat := -47/2, lon := -93/2,
    timestamp := "2023-11-14T22:13:20.000Z", getFails := false,
    setFails := false }

/-- A second sample capture environment in which both AsyncStorage calls
succeed, captured one millisecond later. -/
def e1 : LocEnv :=
  { e0 with now := 1700000000001, suffix := "zq77xk1",
            timestamp := "2023-11-14T22:13:20.001Z" }

/-- A sample capture environment whose storage read rejects. -/
def efail : LocEnv :=
  { e0 with getFails := true }

/-- Storage holding the empty locations list. -/
def st0 : Storage := setItem emptyStorage LOCATIONS_KEY (Raw.json (Json.arr []))

/-- Storage holding a one-element locations list. -/
def stOne : Storage :=
  setItem emptyStorage LOCATIONS_KEY (Raw.json (Json.arr [mkLocation e0]))

/-- Storage whose locations key holds valid JSON that is not an array. -/
def stNum : Storage :=
  setItem emptyStorage LOCATIONS_KEY (Raw.json (Json.num 42))

/-- Storage whose locations key holds a string on which JSON.parse
throws. -/
def stBad : Storage :=
  setItem emptyStorage LOCATIONS_KEY (Raw.corrupt "oops")

/-- Storage holding a stored dark-mode boolean. -/
def stDarkTrue : Storage :=
  setItem emptyStorage DARK_MODE_KEY (Raw.json (Json.bool true))

/-- Storage whose dark-mode key holds a string on which JSON.parse
throws. -/
def stDarkBad : Storage :=
  setItem emptyStorage DARK_MODE_KEY (Raw.corrupt "oops")

/-! Characterization lemmas for `getLocation`. -/

/-- When both AsyncStorage calls succeed and the read-and-spread step
yields the element list `xs`, `getLocation` writes back the prepended list
and installs it. -/
lemma getLocation_success_eq (e : LocEnv) (app : AppState) (st : Storage)
    (xs : List Json) (hg : e.getFails = false) (hs : e.setFails = false)
    (hc : (currentVal st).bind jsSpread = some xs) :
    getLocation e app st =
      { app := { app with isLoading := false,
                          locations := Json.arr (mkLocation e :: xs) },
        store := setItem st LOCATIONS_KEY
                   (Raw.json (Json.arr (mkLocation e :: xs))),
        alerts := [] } := by
  rcases Option.bind_eq_some.mp hc with ⟨cur, hcur, hspread⟩
  simp only [getLocation, hg, Bool.false_eq_true, if_false, hcur, hspread, hs]

/-- When any step of the try block fails (read rejection, parse or spread
exception, write rejection), `getLocation` leaves the storage untouched,
leaves the locations state untouched, and shows exactly one alert. -/
lemma getLocation_failure_eq (e : LocEnv) (app : AppState) (st : Storage)
    (hfail : e.getFails = true ∨ (currentVal st).bind jsSpread = none
      ∨ e.setFails = true) :
    getLocation e app st =
      { app := { app with isLoading := false }, store := st,
        alerts := [errSaveLocation] } := by
  rcases hfail with hg | hbind | hs
  · simp only [getLocation, hg, if_true]
  · cases hg : e.getFails with
    | true => simp only [getLocation, hg, if_true]
    | false =>
        cases hcur : currentVal st with
        | none => simp only [getLocation, hg, Bool.false_eq_true, if_false, hcur]
        | some cur =>
            rw [hcur, Option.some_bind] at hbind
            simp only [getLocation, hg, Bool.false_eq_true, if_false, hcur, hbind]
  · cases hg : e.getFails with
    | true => simp only [getLocation, hg, if_true]
    | false =>
        cases hcur : currentVal st with
        | none => simp only [getLocation, hg, Bool.false_eq_true, if_false, hcur]
        | some cur =>
            cases hspread : jsSpread cur with
            | none =>
                simp only [getLocation, hg, Bool.false_eq_true, if_false, hcur,
                  hspread]
            | some xs =>
                simp only [getLocation, hg, Bool.false_eq_true, if_false, hcur,
                  hspread, hs, if_true]

/-- `getLocation` never touches a storage key other than the locations
key. -/
lemma getLocation_frame (e : LocEnv) (app : AppState) (st : Storage)
    (k : String) (hk : k ≠ LOCATIONS_KEY) :
    (getLocation e app st).store k = st k := by
  cases hg : e.getFails with
  | true => rw [getLocation_failure_eq e app st (Or.inl hg)]
  | false =>
      cases hbind : (currentVal st).bind jsSpread with
      | none => rw [getLocation_failure_eq e app st (Or.inr (Or.inl hbind))]
      | some xs =>
          cases hs : e.setFails with
          | true => rw [getLocation_failure_eq e app st (Or.inr (Or.inr hs))]
          | false =>
              rw [getLocation_success_eq e app st xs hg hs hbind]
              exact if_neg hk

/-- `onToggleSwitch` never touches a storage key other than the dark-mode
key. -/
lemma onToggleSwitch_frame (sF : Bool) (app : AppState) (st : Storage)
    (k : String) (hk : k ≠ DARK_MODE_KEY) :
    (onToggleSwitch sF app st).store k = st k := by
  cases sF with
  | true => rfl
  | false => exact if_neg hk

/-- `loadDarkMode` performs no storage write. -/
lemma loadDarkMode_store_eq (gF : Bool) (app : AppState) (st : Storage) :
    (loadDarkMode gF app st).store = st := by
  cases gF with
  | true => rfl
  | false =>
      cases hc : st DARK_MODE_KEY with
      | none => simp only [loadDarkMode, Bool.false_eq_true, if_false, hc]
      | some raw =>
          cases raw with
          | json j => simp only [loadDarkMode, Bool.false_eq_true, if_false, hc]
          | corrupt s => simp only [loadDarkMode, Bool.false_eq_true, if_false, hc]

/-- `loadLocations` performs no storage write. -/
lemma loadLocations_store_eq (gF : Bool) (app : AppState) (st : Storage) :
    (loadLocations gF app st).store = st := by
  cases gF with
  | true => rfl
  | false =>
      cases hc : st LOCATIONS_KEY with
      | none => simp only [loadLocations, Bool.false_eq_true, if_false, hc]
      | some raw =>
          cases raw with
          | json j => simp only [loadLocations, Bool.false_eq_true, if_false, hc]
          | corrupt s => simp only [loadLocations, Bool.false_eq_true, if_false, hc]

/-- After a sequence of all-successful captures, the installed locations
state is the reverse of the capture order prepended to the starting list
(the generalized induction behind C1). -/
lemma runCaptures_locations (es : List LocEnv) :
    ∀ (app : AppState) (st : Storage) (L : List Json),
    (∀ e ∈ es, e.getFails = false ∧ e.setFails = false) →
    app.locations = Json.arr L →
    (currentVal st).bind jsSpread = some L →
    (runCaptures es app st).1.locations
        = Json.arr ((es.map mkLocation).reverse ++ L)
    ∧ (runCaptures es app st).2 LOCATIONS_KEY
        = (if es.isEmpty then st LOCATIONS_KEY else
            some (Raw.json (Json.arr ((es.map mkLocation).reverse ++ L)))) := by
  induction es with
  | nil =>
      intro app st L h happ hcur
      exact ⟨by simpa [runCaptures] using happ, by simp [runCaptures]⟩
  | cons e rest ih =>
      intro app st L h happ hcur
      have he := h e (List.mem_cons_self e rest)
      have hrest : ∀ x ∈ rest, x.getFails = false ∧ x.setFails = false :=
        fun x hx => h x (List.mem_cons_of_mem e hx)
      simp only [runCaptures]
      rw [getLocation_success_eq e app st L he.1 he.2 hcur]
      have hcur2 : (currentVal (setItem st LOCATIONS_KEY
          (Raw.json (Json.arr (mkLocation e :: L))))).bind jsSpread
          = some (mkLocation e :: L) := by
        simp [currentVal, setItem, jsSpread]
      have step := ih ⟨app.isSwitchOn, false, Json.arr (mkLocation e :: L)⟩
        (setItem st LOCATIONS_KEY (Raw.json (Json.arr (mkLocation e :: L))))
        (mkLocation e :: L) hrest rfl hcur2
      refine ⟨step.1.trans ?_, step.2.trans ?_⟩
      · simp [List.append_assoc]
      · cases rest with
        | nil => simp [setItem]
        | cons r rs => simp [List.append_assoc]

/-- C1: a successful `getLocation` against a persisted list `L` writes back
exactly `L` with the new record prepended, installs that list in memory and
shows no alert; consequently appending `N` records in sequence to an
initially empty store yields a list of length `N` in capture-reversed
(most-recent-first) order. -/
theorem C1_getLocation_append :
    (∀ (e : LocEnv) (app : AppState) (st : Storage) (L : List Json),
        e.getFails = false → e.setFails = false →
        st LOCATIONS_KEY = some (Raw.json (Json.arr L)) →
        (getLocation e app st).store LOCATIONS_KEY
            = some (Raw.json (Json.arr (mkLocation e :: L)))
        ∧ (getLocation e app st).app.locations
            = Json.arr (mkLocation e :: L)
        ∧ (getLocation e app st).alerts = [])
    ∧ (∀ es : List LocEnv,
        (∀ e ∈ es, e.getFails = false ∧ e.setFails = false) →
        (runCaptures es initialAppState emptyStorage).1.locations
            = Json.arr ((es.map mkLocation).reverse)
        ∧ ((es.map mkLocation).reverse).length = es.length) := by
  constructor
  · intro e app st L hg hs hk
    have hc : (currentVal st).bind jsSpread = some L := by
      simp [currentVal, hk, jsSpread]
    rw [getLocation_success_eq e app st L hg hs hc]
    exact ⟨by simp [setItem], rfl, rfl⟩
  · intro es h
    have step := (runCaptures_locations es initialAppState emptyStorage []
      h rfl rfl).1
    constructor
    · simpa using step
    · simp

/-- Instantiation of the C1 theorem: one capture against a stored empty
list, and a two-capture sequence from empty storage. -/
theorem C1_witness :
    (getLocation e0 initialAppState st0).store LOCATIONS_KEY
        = some (Raw.json (Json.arr [mkLocation e0]))
    ∧ (runCaptures [e0, e1] initialAppState emptyStorage).1.locations
        = Json.arr [mkLocation e1, mkLocation e0] := by
  have h := C1_getLocation_append
  refine ⟨(h.1 e0 initialAppState st0 [] rfl rfl rfl).1, ?_⟩
  have h2 := (h.2 [e0, e1] ?_).1
  · simpa using h2
  · intro x hx
    simp only [List.mem_cons, List.not_mem_nil, or_false] at hx
    rcases hx with rfl | rfl
    · exact ⟨rfl, rfl⟩
    · exact ⟨rfl, rfl⟩

/-- C2: if `getLocation` fails at any point between its read of the
locations key and the completion of its write (read rejection, parse or
spread exception, write rejection — i.e. whenever it alerts), the
persisted storage is left unchanged, the in-memory locations state is not
updated, and the error is surfaced exactly once via one alert. -/
theorem C2_getLocation_failure_atomic (e : LocEnv) (app : AppState)
    (st : Storage) (h : (getLocation e app st).alerts ≠ []) :
    (getLocation e app st).store = st
    ∧ (getLocation e app st).app.locations = app.locations
    ∧ (getLocation e app st).alerts = [errSaveLocation] := by
  cases hg : e.getFails with
  | true =>
      rw [getLocation_failure_eq e app st (Or.inl hg)]
      exact ⟨rfl, rfl, rfl⟩
  | false =>
      cases hbind : (currentVal st).bind jsSpread with
      | none =>
          rw [getLocation_failure_eq e app st (Or.inr (Or.inl hbind))]
          exact ⟨rfl, rfl, rfl⟩
      | some xs =>
          cases hs : e.setFails with
          | true =>
              rw [getLocation_failure_eq e app st (Or.inr (Or.inr hs))]
              exact ⟨rfl, rfl, rfl⟩
          | false =>
              rw [getLocation_success_eq e app st xs hg hs hbind] at h
              exact absurd rfl h

/-- Instantiation of the C2 theorem at a concrete failing call. -/
theorem C2_witness :
    (getLocation efail initialAppState emptyStorage).store = emptyStorage
    ∧ (getLocation efail initialAppState emptyStorage).app.locations
        = initialAppState.locations
    ∧ (getLocation efail initialAppState emptyStorage).alerts
        = [errSaveLocation] :=
  C2_getLocation_failure_atomic efail initialAppState emptyStorage
    (by intro hx; simp [getLocation, efail, e0] at hx)

/-- C3: `loadLocations` installs the deserialized persisted list when one
is present, installs the empty list when the locations key is absent, and
on a read rejection or a parse exception installs the empty list and
signals the error via one alert instead of crashing. -/
theorem C3_loadLocations_spec (gF : Bool) (app : AppState) (st : Storage) :
    (gF = false → ∀ L : List Json,
        st LOCATIONS_KEY = some (Raw.json (Json.arr L)) →
        (loadLocations gF app st).app.locations = Json.arr L
        ∧ (loadLocations gF app st).alerts = [])
    ∧ (gF = false → st LOCATIONS_KEY = none →
        (loadLocations gF app st).app.locations = Json.arr []
        ∧ (loadLocations gF app st).alerts = [])
    ∧ ((gF = true ∨ ∃ s, st LOCATIONS_KEY = some (Raw.corrupt s)) →
        (loadLocations gF app st).app.locations = Json.arr []
        ∧ (loadLocations gF app st).alerts = [errLoadLocations]) := by
  refine ⟨?_, ?_, ?_⟩
  · rintro rfl L hk
    simp [loadLocations, hk]
  · rintro rfl hk
    simp [loadLocations, hk]
  · rintro (rfl | ⟨s, hk⟩)
    · simp [loadLocations]
    · cases gF with
      | true => simp [loadLocations]
      | false => simp [loadLocations, hk]

/-- Instantiation of the C3 theorem at concrete storages: a stored list, an
absent key, and a corrupt stored string. -/
theorem C3_witness :
    (loadLocations false initialAppState stOne).app.locations
        = Json.arr [mkLocation e0]
    ∧ (loadLocations false initialAppState emptyStorage).app.locations
        = Json.arr []
    ∧ (loadLocations false initialAppState stBad).app.locations = Json.arr []
    ∧ (loadLocations false initialAppState stBad).alerts
        = [errLoadLocations] := by
  refine ⟨((C3_loadLocations_spec false initialAppState stOne).1 rfl
      [mkLocation e0] rfl).1, ?_, ?_, ?_⟩
  · exact ((C3_loadLocations_spec false initialAppState emptyStorage).2.1
      rfl rfl).1
  · exact ((C3_loadLocations_spec false initialAppState stBad).2.2
      (Or.inr ⟨"oops", rfl⟩)).1
  · exact ((C3_loadLocations_spec false initialAppState stBad).2.2
      (Or.inr ⟨"oops", rfl⟩)).2

/-- C4: starting from the initial component state, `loadDarkMode` installs
the stored boolean when one is present, and leaves the preference at
`false` when the key is absent or when the read rejects or the parse
throws (in the failure cases one alert is shown and the call is
non-fatal). -/
theorem C4_loadDarkMode_spec (gF : Bool) (st : Storage) :
    (gF = false → ∀ b : Bool,
        st DARK_MODE_KEY = some (Raw.json (Json.bool b)) →
        (loadDarkMode gF initialAppState st).app.isSwitchOn = Json.bool b
        ∧ (loadDarkMode gF initialAppState st).alerts = [])
    ∧ (gF = false → st DARK_MODE_KEY = none →
        (loadDarkMode gF initialAppState st).app.isSwitchOn = Json.bool false
        ∧ (loadDarkMode gF initialAppState st).alerts = [])
    ∧ ((gF = true ∨ ∃ s, st DARK_MODE_KEY = some (Raw.corrupt s)) →
        (loadDarkMode gF initialAppState st).app.isSwitchOn = Json.bool false
        ∧ (loadDarkMode gF initialAppState st).alerts = [errLoadDarkMode]) := by
  refine ⟨?_, ?_, ?_⟩
  · rintro rfl b hk
    simp [loadDarkMode, hk]
  · rintro rfl hk
    simp [loadDarkMode, hk, initialAppState]
  · rintro (rfl | ⟨s, hk⟩)
    · simp [loadDarkMode, initialAppState]
    · cases gF with
      | true => simp [loadDarkMode, initialAppState]
      | false => simp [loadDarkMode, hk, initialAppState]

/-- Instantiation of the C4 theorem at concrete storages: a stored `true`,
an absent key, and a corrupt stored string. -/
theorem C4_witness :
    (loadDarkMode false initialAppState stDarkTrue).app.isSwitchOn
        = Json.bool true
    ∧ (loadDarkMode false initialAppState emptyStorage).app.isSwitchOn
        = Json.bool false
    ∧ (loadDarkMode false initialAppState stDarkBad).app.isSwitchOn
        = Json.bool false
    ∧ (loadDarkMode false initialAppState stDarkBad).alerts
        = [errLoadDarkMode] := by
  refine ⟨((C4_loadDarkMode_spec false stDarkTrue).1 rfl true rfl).1, ?_, ?_, ?_⟩
  · exact ((C4_loadDarkMode_spec false emptyStorage).2.1 rfl rfl).1
  · exact ((C4_loadDarkMode_spec false stDarkBad).2.2 (Or.inr ⟨"oops", rfl⟩)).1
  · exact ((C4_loadDarkMode_spec false stDarkBad).2.2 (Or.inr ⟨"oops", rfl⟩)).2

/-- C5: `onToggleSwitch` always installs the toggled preference in memory,
even when the storage write rejects; on a write rejection the storage is
unchanged and the failure is surfaced exactly once via one alert; on a
successful write no alert is shown. -/
theorem C5_onToggleSwitch_spec (sF : Bool) (app : AppState) (st : Storage) :
    (onToggleSwitch sF app st).app.isSwitchOn
        = Json.bool (! jsTruthy app.isSwitchOn)
    ∧ (sF = true → (onToggleSwitch sF app st).store = st
        ∧ (onToggleSwitch sF app st).alerts = [errSaveDarkMode])
    ∧ (sF = false → (onToggleSwitch sF app st).alerts = []) := by
  cases sF with
  | true => exact ⟨rfl, fun _ => ⟨rfl, rfl⟩, fun h => Bool.noConfusion h⟩
  | false => exact ⟨rfl, fun h => Bool.noConfusion h, fun _ => rfl⟩

/-- Instantiation of the C5 theorem at a concrete failing write. -/
theorem C5_witness :
    (onToggleSwitch true initialAppState emptyStorage).app.isSwitchOn
        = Json.bool true
    ∧ (onToggleSwitch true initialAppState emptyStorage).store = emptyStorage
    ∧ (onToggleSwitch true initialAppState emptyStorage).alerts
        = [errSaveDarkMode] := by
  have h := C5_onToggleSwitch_spec true initialAppState emptyStorage
  exact ⟨h.1, (h.2.1 rfl).1, (h.2.1 rfl).2⟩

/-- C7: capturing one location against empty storage and then loading the
locations yields exactly the one-element list holding that record. -/
theorem C7_roundtrip (e : LocEnv) (hg : e.getFails = false)
    (hs : e.setFails = false) :
    (loadLocations false (getLocation e initialAppState emptyStorage).app
        (getLocation e initialAppState emptyStorage).store).app.locations
      = Json.arr [mkLocation e] := by
  rw [getLocation_success_eq e initialAppState emptyStorage [] hg hs rfl]
  simp [loadLocations, setItem]

/-- Instantiation of the C7 theorem at a concrete capture. -/
theorem C7_witness :
    (loadLocations false (getLocation e0 initialAppState emptyStorage).app
        (getLocation e0 initialAppState emptyStorage).store).app.locations
      = Json.arr [mkLocation e0] :=
  C7_roundtrip e0 rfl rfl

/-- C9 (frame property): `onToggleSwitch` writes no key other than the
dark-mode key, `getLocation` writes no key other than the locations key,
and the two load operations perform no storage write at all. -/
theorem C9_frame_property :
    (∀ (sF : Bool) (app : AppState) (st : Storage) (k : String),
        k ≠ DARK_MODE_KEY → (onToggleSwitch sF app st).store k = st k)
    ∧ (∀ (e : LocEnv) (app : AppState) (st : Storage) (k : String),
        k ≠ LOCATIONS_KEY → (getLocation e app st).store k = st k)
    ∧ (∀ (gF : Bool) (app : AppState) (st : Storage),
        (loadDarkMode gF app st).store = st)
    ∧ (∀ (gF : Bool) (app : AppState) (st : Storage),
        (loadLocations gF app st).store = st) :=
  ⟨onToggleSwitch_frame, getLocation_frame, loadDarkMode_store_eq,
   loadLocations_store_eq⟩

/-- Instantiation of the C9 theorem at concrete calls and keys. -/
theorem C9_witness :
    (onToggleSwitch false initialAppState emptyStorage).store LOCATIONS_KEY
        = none
    ∧ (getLocation e0 initialAppState emptyStorage).store DARK_MODE_KEY
        = none
    ∧ (loadDarkMode false initialAppState emptyStorage).store = emptyStorage
    ∧ (loadLocations false initialAppState emptyStorage).store
        = emptyStorage := by
  have h := C9_frame_property
  exact ⟨h.1 false initialAppState emptyStorage LOCATIONS_KEY (by decide),
         h.2.1 e0 initialAppState emptyStorage DARK_MODE_KEY (by decide),
         h.2.2.1 false initialAppState emptyStorage,
         h.2.2.2 false initialAppState emptyStorage⟩

/-- C10: `loadLocations` performs no shape validation — any stored value
that parses as JSON, array or not, is installed as the locations state
as-is with no alert; only a parse exception resets the state to the empty
list (with one alert). -/
theorem C10_no_shape_validation :
    (∀ (j : Json) (app : AppState) (st : Storage),
        st LOCATIONS_KEY = some (Raw.json j) →
        (loadLocations false app st).app.locations = j
        ∧ (loadLocations false app st).alerts = [])
    ∧ (∀ (s : String) (app : AppState) (st : Storage),
        st LOCATIONS_KEY = some (Raw.corrupt s) →
        (loadLocations false app st).app.locations = Json.arr []
        ∧ (loadLocations false app st).alerts = [errLoadLocations]) := by
  constructor
  · intro j app st hk
    simp [loadLocations, hk]
  · intro s app st hk
    simp [loadLocations, hk]

/-- Instantiation of the C10 theorem: a stored JSON number is installed
as-is without any alert, while a corrupt stored string resets the list. -/
theorem C10_witness :
    (loadLocations false initialAppState stNum).app.locations = Json.num 42
    ∧ (loadLocations false initialAppState stNum).alerts = []
    ∧ (loadLocations false initialAppState stBad).app.locations
        = Json.arr [] := by
  have h := C10_no_shape_validation
  exact ⟨(h.1 (Json.num 42) initialAppState stNum rfl).1,
         (h.1 (Json.num 42) initialAppState stNum rfl).2,
         (h.2 "oops" initialAppState stBad rfl).1⟩

/-! Facts about the decimal rendering used in the record id. -/

/-- `digitVal` inverts `Nat.digitChar` on decimal digits. -/
lemma digitVal_digitChar (d : Nat) (h : d < 10) :
    digitVal (Nat.digitChar d) = d := by
  interval_cases d <;> rfl

/-- Decimal digit characters are never a dash. -/
lemma digitChar_ne_dash (d : Nat) (h : d < 10) : Nat.digitChar d ≠ '-' := by
  interval_cases d <;> decide

/-- With enough fuel, the core digit loop of `Nat.repr` produces
`reprDigits` followed by the accumulator. -/
lemma toDigitsCore_eq_reprDigits (f : Nat) :
    ∀ (n : Nat) (acc : List Char), n < f →
    Nat.toDigitsCore 10 f n acc = reprDigits n ++ acc := by
  induction f with
  | zero => intro n acc h; exact absurd h (Nat.not_lt_zero n)
  | succ f ih =>
      intro n acc h
      simp only [Nat.toDigitsCore]
      by_cases h0 : n / 10 = 0
      · have hn : n < 10 := by omega
        rw [if_pos h0, reprDigits, dif_pos hn, Nat.mod_eq_of_lt hn]
        rfl
      · have hlt : n / 10 < f := by omega
        rw [if_neg h0, ih (n / 10) (Nat.digitChar (n % 10) :: acc) hlt]
        conv_rhs => rw [reprDigits]
        rw [dif_neg (by omega : ¬ n < 10), List.append_assoc]
        rfl

/-- The character data of `Nat.repr` is `reprDigits`. -/
lemma repr_data_eq (n : Nat) : (Nat.repr n).data = reprDigits n := by
  show (List.asString (Nat.toDigitsCore 10 (n + 1) n [])).data = reprDigits n
  rw [toDigitsCore_eq_reprDigits (n + 1) n [] (Nat.lt_succ_self n)]
  simp [List.asString]

/-- Folding the digit values of `reprDigits n` recovers `n`. -/
lemma reprDigits_foldl (n : Nat) : ∀ a : Nat,
    List.foldl (fun a c => 10 * a + digitVal c) a (reprDigits n)
      = a * 10 ^ (reprDigits n).length + n := by
  induction n using Nat.strong_induction_on with
  | _ n ih =>
      intro a
      by_cases h : n < 10
      · rw [reprDigits, dif_pos h]
        simp [digitVal_digitChar n h]
        ring
      · have hq : n / 10 < n := Nat.div_lt_self (by omega) (by omega)
        rw [reprDigits, dif_neg h, List.foldl_append, ih (n / 10) hq a]
        simp only [List.foldl_cons, List.foldl_nil, List.length_append,
          List.length_singleton]
        rw [digitVal_digitChar (n % 10) (Nat.mod_lt n (by omega))]
        calc 10 * (a * 10 ^ (reprDigits (n / 10)).length + n / 10) + n % 10
            = a * (10 ^ (reprDigits (n / 10)).length * 10)
                + (10 * (n / 10) + n % 10) := by ring
          _ = a * 10 ^ ((reprDigits (n / 10)).length + 1) + n := by
              rw [Nat.div_add_mod, pow_succ]

/-- `reprDigits` is injective. -/
lemma reprDigits_inj (m n : Nat) (h : reprDigits m = reprDigits n) :
    m = n := by
  have hm := reprDigits_foldl m 0
  have hn := reprDigits_foldl n 0
  rw [h] at hm
  simp only [Nat.zero_mul, Nat.zero_add] at hm hn
  exact hm.symm.trans hn

/-- The dash character never occurs in `reprDigits`. -/
lemma dash_not_mem_reprDigits (n : Nat) : '-' ∉ reprDigits n := by
  induction n using Nat.strong_induction_on with
  | _ n ih =>
      by_cases h : n < 10
      · rw [reprDigits, dif_pos h]
        intro hmem
        rw [List.mem_singleton] at hmem
        exact digitChar_ne_dash n h hmem.symm
      · have hq : n / 10 < n := Nat.div_lt_self (by omega) (by omega)
        rw [reprDigits, dif_neg h]
        intro hmem
        rcases List.mem_append.mp hmem with hmem | hmem
        · exact ih (n / 10) hq hmem
        · rw [List.mem_singleton] at hmem
          exact digitChar_ne_dash (n % 10) (Nat.mod_lt n (by omega)) hmem.symm

/-- Splitting two list concatenations at a separator that occurs in
neither prefix determines both halves. -/
lemma append_sep_inj {α : Type} (d : α) :
    ∀ (xs xs' ys ys' : List α), d ∉ xs → d ∉ xs' →
    xs ++ d :: ys = xs' ++ d :: ys' → xs = xs' ∧ ys = ys' := by
  intro xs
  induction xs with
  | nil =>
      intro xs' ys ys' _ hx' h
      cases xs' with
      | nil =>
          simp only [List.nil_append, List.cons.injEq, true_and] at h
          exact ⟨rfl, h⟩
      | cons b t =>
          simp only [List.nil_append, List.cons_append, List.cons.injEq] at h
          exact absurd (h.1 ▸ List.mem_cons_self b t) hx'
  | cons a t ih =>
      intro xs' ys ys' hx hx' h
      cases xs' with
      | nil =>
          simp only [List.cons_append, List.nil_append, List.cons.injEq] at h
          exact absurd (h.1 ▸ List.mem_cons_self a t) hx
      | cons b t' =>
          simp only [List.cons_append, List.cons.injEq] at h
          have hx2 : d ∉ t := fun hm => hx (List.mem_cons_of_mem a hm)
          have hx'2 : d ∉ t' := fun hm => hx' (List.mem_cons_of_mem b hm)
          obtain ⟨ht, hy⟩ := ih t' ys ys' hx2 hx'2 h.2
          exact ⟨by rw [h.1, ht], hy⟩

/-- The record id determines the observed timestamp and the observed
random suffix: the decimal timestamp part contains no dash, so the dash
separating it from the suffix is unambiguous. -/
lemma mkLocationId_inj (n1 n2 : Nat) (s1 s2 : String)
    (h : mkLocationId n1 s1 = mkLocationId n2 s2) : n1 = n2 ∧ s1 = s2 := by
  have hd := congrArg String.data h
  simp only [mkLocationId, String.data_append] at hd
  simp only [List.append_assoc, List.cons_append, List.nil_append,
    List.singleton_append, List.cons.injEq, true_and] at hd
  have d1 : '-' ∉ (Nat.repr n1).data := by
    rw [repr_data_eq]; exact dash_not_mem_reprDigits n1
  have d2 : '-' ∉ (Nat.repr n2).data := by
    rw [repr_data_eq]; exact dash_not_mem_reprDigits n2
  obtain ⟨hr, hs⟩ :=
    append_sep_inj '-' (Nat.repr n1).data (Nat.repr n2).data
      s1.data s2.data d1 d2 hd
  constructor
  · rw [repr_data_eq, repr_data_eq] at hr
    exact reprDigits_inj n1 n2 hr
  · exact String.ext hs

/-- C8 as stated is false: two capture invocations may observe the same
`Date.now()` millisecond and the same `Math.random` suffix (the random
source gives no uniqueness guarantee), in which case the two created
records carry the same id string. -/
theorem C8_counterexample :
    ¬ (∀ (obs : Nat → LocEnv), ∀ i j : Nat, i ≠ j →
        mkLocationId (obs i).now (obs i).suffix
          ≠ mkLocationId (obs j).now (obs j).suffix) := by
  intro h
  exact h (fun _ => e0) 0 1 Nat.zero_ne_one rfl

/-- C8 amended: two capture invocations create records with distinct id
strings whenever their observed millisecond timestamp and random suffix
are not both equal — in particular, same-millisecond captures get distinct
ids whenever their random suffixes differ. -/
theorem C8_distinct_ids_amended (e1 e2 : LocEnv)
    (hne : (e1.now, e1.suffix) ≠ (e2.now, e2.suffix)) :
    mkLocationId e1.now e1.suffix ≠ mkLocationId e2.now e2.suffix := by
  intro h
  obtain ⟨hn, hs⟩ :=
    mkLocationId_inj e1.now e2.now e1.suffix e2.suffix h
  exact hne (by rw [hn, hs])

/-- Instantiation of the amended C8 theorem at two same-millisecond
captures with different random suffixes. -/
theorem C8_witness :
    mkLocationId 1700000000000 "abc1234" ≠ mkLocationId 1700000000000 "zq77xk1" := by
  have h := C8_distinct_ids_amended e0
    { e0 with suffix := "zq77xk1" } (by decide)
  exact h

/-- C6 as stated is false: the code persists the preference and the list
under the AsyncStorage keys `@darkMode` and `@locations`, not `darkMode`
and `locations` — after a successful toggle and a successful capture the
claimed keys are still unset while the `@`-prefixed keys hold the
values. -/
theorem C6_counterexample :
    (onToggleSwitch false initialAppState emptyStorage).store "darkMode" = none
    ∧ (onToggleSwitch false initialAppState emptyStorage).store "@darkMode"
        = some (Raw.json (Json.bool true))
    ∧ (getLocation e0 initialAppState emptyStorage).store "locations" = none
    ∧ (getLocation e0 initialAppState emptyStorage).store "@locations"
        = some (Raw.json (Json.arr [mkLocation e0])) := by
  have hgl := getLocation_success_eq e0 initialAppState emptyStorage [] rfl rfl rfl
  refine ⟨rfl, rfl, ?_, ?_⟩
  · rw [hgl]
    simp only [setItem]
    rw [if_neg (by decide : ¬ ("locations" : String) = LOCATIONS_KEY)]
    rfl
  · rw [hgl]
    simp [setItem, LOCATIONS_KEY]

/-- C6 amended: the program persists the dark-mode preference under the
storage key `@darkMode` as a JSON boolean and the location list under the
storage key `@locations` as a JSON array, and touches no other storage
keys. -/
theorem C6_storage_keys_amended :
    (∀ (sF : Bool) (app : AppState) (st : Storage) (k : String),
        k ≠ DARK_MODE_KEY → (onToggleSwitch sF app st).store k = st k)
    ∧ (∀ (app : AppState) (st : Storage),
        (onToggleSwitch false app st).store DARK_MODE_KEY
          = some (Raw.json (Json.bool (! jsTruthy app.isSwitchOn))))
    ∧ (∀ (e : LocEnv) (app : AppState) (st : Storage) (k : String),
        k ≠ LOCATIONS_KEY → (getLocation e app st).store k = st k)
    ∧ (∀ (e : LocEnv) (app : AppState) (st : Storage),
        (getLocation e app st).store LOCATIONS_KEY ≠ st LOCATIONS_KEY →
        ∃ xs : List Json, (getLocation e app st).store LOCATIONS_KEY
          = some (Raw.json (Json.arr xs)))
    ∧ (∀ (gF : Bool) (app : AppState) (st : Storage),
        (loadDarkMode gF app st).store = st
        ∧ (loadLocations gF app st).store = st) := by
  refine ⟨onToggleSwitch_frame, ?_, getLocation_frame, ?_, ?_⟩
  · intro app st
    simp [onToggleSwitch, setItem]
  · intro e app st hne
    cases hg : e.getFails with
    | true =>
        rw [getLocation_failure_eq e app st (Or.inl hg)] at hne
        exact absurd rfl hne
    | false =>
        cases hbind : (currentVal st).bind jsSpread with
        | none =>
            rw [getLocation_failure_eq e app st (Or.inr (Or.inl hbind))] at hne
            exact absurd rfl hne
        | some xs =>
            cases hs : e.setFails with
            | true =>
                rw [getLocation_failure_eq e app st (Or.inr (Or.inr hs))] at hne
                exact absurd rfl hne
            | false =>
                rw [getLocation_success_eq e app st xs hg hs hbind]
                exact ⟨mkLocation e :: xs, by simp [setItem]⟩
  · intro gF app st
    exact ⟨loadDarkMode_store_eq gF app st, loadLocations_store_eq gF app st⟩

/-- Instantiation of the amended C6 theorem at a concrete toggle. -/
theorem C6_witness :
    (onToggleSwitch false initialAppState emptyStorage).store DARK_MODE_KEY
        = some (Raw.json (Json.bool true))
    ∧ (onToggleSwitch false initialAppState emptyStorage).store LOCATIONS_KEY
        = none := by
  have h := C6_storage_keys_amended
  exact ⟨h.2.1 initialAppState emptyStorage,
         h.1 false initialAppState emptyStorage LOCATIONS_KEY (by decide)⟩

end MyLocationApp
